import Mathlib

/-!
Shallow embedding of `AutoTrader/persistence.py` (schema migrator, store
initialization and dry-run cleanup), together with proofs about the
behaviour of the embedded functions.

SQL values are modelled by `Val`; a column descriptor (the dictionaries
returned by the schema inspector) is modelled by its `name` field, the only
field the code reads.  Machine floats never get computed with — they are
only copied verbatim by the code under study — so numeric values are
modelled by `ℚ`.
-/

inductive Val where
  | null : Val
  | num : ℚ → Val
  | text : String → Val
  | boolv : Bool → Val
deriving DecidableEq

structure Col where
  name : String
deriving DecidableEq

/-- Embeds `has_columns(columns, searchname)`:
`len(list(filter(lambda x: x['name'] == searchname, columns))) == 1`. -/
def has_columns (columns : List Col) (searchname : String) : Bool :=
  (columns.filter (fun x => x.name == searchname)).length == 1

/-- Embeds `get_column_def(columns, column, default)`:
`default if not has_columns(columns, column) else column`. -/
def get_column_def (columns : List Col) (column dflt : String) : String :=
  if !(has_columns columns column) then dflt else column

/-- Zero-based index of the first occurrence of `y` in `x`, scanning from
offset `i`; `none` when `y` does not occur. -/
def csInstrFrom : List Char → List Char → Nat → Option Nat
  | x, y, i =>
    if y.isPrefixOf x then some i
    else
      match x with
      | [] => none
      | _ :: t => csInstrFrom t y (i + 1)

/-- SQLite `instr(X, Y)`: one-based index of the first occurrence of `Y`
inside `X`, and `0` when `Y` does not occur. -/
def sqliteInstr (x y : String) : Nat :=
  match csInstrFrom x.data y.data 0 with
  | some i => i + 1
  | none => 0

/-- SQLite two-argument `substr(X, Y)`: the suffix of `X` starting at
one-based position `Y`.  Position `0` lies just before the first character,
and a negative `Y` counts from the right end of the string; in both cases
the (implicit, unbounded) length reaches to the end of `X`. -/
def sqliteSubstr (x : String) (y : Int) : String :=
  if 1 ≤ y then String.mk (x.data.drop (y.toNat - 1))
  else if y = 0 then x
  else String.mk (x.data.drop ((x.length : Int) + y).toNat)

/-- Embeds the `case` expression of the migration's insert-select:
`case when instr(pair, '_') != 0 then substr(pair, instr(pair, '_') + 1) ||
'/' || substr(pair, instr(pair, '_') - 1) else pair end`. -/
def migratePair (pair : String) : String :=
  if sqliteInstr pair "_" ≠ 0 then
    sqliteSubstr pair ((sqliteInstr pair "_" : Int) + 1) ++ "/" ++
      sqliteSubstr pair ((sqliteInstr pair "_" : Int) - 1)
  else pair

/-- Embeds the backup-name loop of `check_migrate`:
`table_back_name = 'trades_bak'` followed by
`for i, table_back_name in enumerate(tabs): table_back_name = f'trades_bak{i}'`.
The loop result is the value after the last iteration, so the fold only
keeps the final rebinding. -/
def backupName (tabs : List String) : String :=
  (List.range tabs.length).foldl (fun _ i => "trades_bak" ++ toString i) "trades_bak"

/-- A database row: an association of column names to SQL values. -/
abbrev Row := List (String × Val)

/-- Value of column `c` in a row (SQL `null` when the column is absent). -/
def rowVal (row : Row) (c : String) : Val :=
  match row.find? (fun p => p.1 == c) with
  | some p => p.2
  | none => Val.null

/-- Meaning of a projection expression produced by `get_column_def` when it
is spliced into the insert-select: the SQL keyword `null`, the SQL literal
`0.0`, or a reference to a column of the source table. -/
def evalExpr (row : Row) (e : String) : Val :=
  if e = "null" then Val.null
  else if e = "0.0" then Val.num 0
  else rowVal row e

/-- SQLite `lower(X)`: lowercases text, passes `null` (and any non-text
value of the dynamically typed column) through. -/
def lowerVal : Val → Val
  | Val.text s => Val.text s.toLower
  | v => v

/-- The migration's `case` expression applied to the value of the `pair`
column: the transform acts on text; for a `null` pair the `when` condition
is not true, so the `else` branch returns the value unchanged. -/
def pairVal : Val → Val
  | Val.text s => Val.text (migratePair s)
  | v => v

/-- Embeds the fifteen `get_column_def` bindings of `check_migrate`
(lines computing `fee_open` through `ticker_interval`), as the list of
(target column, projection expression) pairs. -/
def check_migrate_defaults (cols : List Col) : List (String × String) :=
  [("fee_open", get_column_def cols "fee_open" "fee"),
   ("fee_close", get_column_def cols "fee_close" "fee"),
   ("open_rate_requested", get_column_def cols "open_rate_requested" "null"),
   ("close_rate_requested", get_column_def cols "close_rate_requested" "null"),
   ("stop_loss", get_column_def cols "stop_loss" "0.0"),
   ("stop_loss_pct", get_column_def cols "stop_loss_pct" "null"),
   ("initial_stop_loss", get_column_def cols "initial_stop_loss" "0.0"),
   ("initial_stop_loss_pct", get_column_def cols "initial_stop_loss_pct" "null"),
   ("stoploss_order_id", get_column_def cols "stoploss_order_id" "null"),
   ("stoploss_last_update", get_column_def cols "stoploss_last_update" "null"),
   ("max_rate", get_column_def cols "max_rate" "0.0"),
   ("min_rate", get_column_def cols "min_rate" "null"),
   ("sell_reason", get_column_def cols "sell_reason" "null"),
   ("strategy", get_column_def cols "strategy" "null"),
   ("ticker_interval", get_column_def cols "ticker_interval" "null")]

/-- Row-level meaning of the select projection of the migration's
insert-select: plain column references are copied, `lower(exchange)` and the
`pair` case expression are applied, and the fifteen resolved expressions are
evaluated by `evalExpr`. -/
def migrateRow (cols : List Col) (row : Row) : Row :=
  let fee_open := get_column_def cols "fee_open" "fee"
  let fee_close := get_column_def cols "fee_close" "fee"
  let open_rate_requested := get_column_def cols "open_rate_requested" "null"
  let close_rate_requested := get_column_def cols "close_rate_requested" "null"
  let stop_loss := get_column_def cols "stop_loss" "0.0"
  let stop_loss_pct := get_column_def cols "stop_loss_pct" "null"
  let initial_stop_loss := get_column_def cols "initial_stop_loss" "0.0"
  let initial_stop_loss_pct := get_column_def cols "initial_stop_loss_pct" "null"
  let stoploss_order_id := get_column_def cols "stoploss_order_id" "null"
  let stoploss_last_update := get_column_def cols "stoploss_last_update" "null"
  let max_rate := get_column_def cols "max_rate" "0.0"
  let min_rate := get_column_def cols "min_rate" "null"
  let sell_reason := get_column_def cols "sell_reason" "null"
  let strategy := get_column_def cols "strategy" "null"
  let ticker_interval := get_column_def cols "ticker_interval" "null"
  [("id", rowVal row "id"),
   ("exchange", lowerVal (rowVal row "exchange")),
   ("pair", pairVal (rowVal row "pair")),
   ("is_open", rowVal row "is_open"),
   ("fee_open", evalExpr row fee_open),
   ("fee_close", evalExpr row fee_close),
   ("open_rate", rowVal row "open_rate"),
   ("open_rate_requested", evalExpr row open_rate_requested),
   ("close_rate", rowVal row "close_rate"),
   ("close_rate_requested", evalExpr row close_rate_requested),
   ("close_profit", rowVal row "close_profit"),
   ("stake_amount", rowVal row "stake_amount"),
   ("amount", rowVal row "amount"),
   ("open_date", rowVal row "open_date"),
   ("close_date", rowVal row "close_date"),
   ("open_order_id", rowVal row "open_order_id"),
   ("stop_loss", evalExpr row stop_loss),
   ("stop_loss_pct", evalExpr row stop_loss_pct),
   ("initial_stop_loss", evalExpr row initial_stop_loss),
   ("initial_stop_loss_pct", evalExpr row initial_stop_loss_pct),
   ("stoploss_order_id", evalExpr row stoploss_order_id),
   ("stoploss_last_update", evalExpr row stoploss_last_update),
   ("max_rate", evalExpr row max_rate),
   ("min_rate", evalExpr row min_rate),
   ("sell_reason", evalExpr row sell_reason),
   ("strategy", evalExpr row strategy),
   ("ticker_interval", evalExpr row ticker_interval)]

/-- The select of the insert-select, applied to every row of the source
table. -/
def migrateTable (cols : List Col) (rows : List Row) : List Row :=
  rows.map (migrateRow cols)

/-- A database table: name, column descriptors, rows. -/
structure Table where
  name : String
  cols : List Col
  rows : List Row
deriving DecidableEq

/-- A database: the list of its tables. -/
abbrev DBState := List Table

/-- First table carrying the given name, mirroring how the storage engine
resolves a table reference. -/
def getTable (s : DBState) (n : String) : Option Table :=
  s.find? (fun t => t.name == n)

/-- Embeds `inspector.get_table_names()`. -/
def get_table_names (s : DBState) : List String :=
  s.map Table.name

/-- Embeds `inspector.get_columns('trades')` (empty when the table is
absent). -/
def get_columns (s : DBState) (n : String) : List Col :=
  match getTable s n with
  | some t => t.cols
  | none => []

/-- Column set of the current `Trade` model class (the table shape that
`_DECL_BASE.metadata.create_all` produces), in declaration order.  Note the
model's attribute is `stop_loss_order_id`. -/
def trades_schema_cols : List Col :=
  [⟨"id"⟩, ⟨"exchange"⟩, ⟨"pair"⟩, ⟨"is_open"⟩, ⟨"fee_open"⟩, ⟨"fee_close"⟩,
   ⟨"open_rate"⟩, ⟨"open_rate_requested"⟩, ⟨"close_rate"⟩,
   ⟨"close_rate_requested"⟩, ⟨"close_profit"⟩, ⟨"stake_amount"⟩, ⟨"amount"⟩,
   ⟨"open_date"⟩, ⟨"close_date"⟩, ⟨"open_order_id"⟩, ⟨"stop_loss"⟩,
   ⟨"stop_loss_pct"⟩, ⟨"initial_stop_loss"⟩, ⟨"initial_stop_loss_pct"⟩,
   ⟨"stop_loss_order_id"⟩, ⟨"stoploss_last_update"⟩, ⟨"max_rate"⟩,
   ⟨"min_rate"⟩, ⟨"sell_reason"⟩, ⟨"strategy"⟩, ⟨"ticker_interval"⟩]

/-- Target column list of the migration's `insert into trades (...)`
statement, in statement order.  Note the statement names
`stoploss_order_id`. -/
def insert_target_columns : List String :=
  ["id", "exchange", "pair", "is_open", "fee_open", "fee_close", "open_rate",
   "open_rate_requested", "close_rate", "close_rate_requested",
   "close_profit", "stake_amount", "amount", "open_date", "close_date",
   "open_order_id", "stop_loss", "stop_loss_pct", "initial_stop_loss",
   "initial_stop_loss_pct", "stoploss_order_id", "stoploss_last_update",
   "max_rate", "min_rate", "sell_reason", "strategy", "ticker_interval"]

/-- Embeds `check_migrate(engine)` as a transition on the database state,
returning `(error?, new state)`.  The marker check, backup-name computation,
`alter table ... rename`, the re-creation of `trades` from the model
metadata and the insert-select are modelled; index drops are not part of the
state.  The storage engine rejects `alter table ... rename` when the target
name already belongs to a table, leaving the state unchanged; and it accepts
the insert-select only when every target column exists in the freshly
created table — otherwise the statement is rejected and the (empty) new
table is left as is. -/
def check_migrate_state (s : DBState) : Option String × DBState :=
  let cols := get_columns s "trades"
  let tabs := get_table_names s
  let table_back_name := backupName tabs
  if has_columns cols "stop_loss_pct" then (none, s)
  else
    match getTable s "trades" with
    | none => (some "no such table: trades", s)
    | some t =>
      if tabs.contains table_back_name then
        (some ("there is already another table or index with this name: " ++
          table_back_name), s)
      else
        let s1 := s.map (fun u => if u.name == "trades" then { u with name := table_back_name } else u)
        let missing := insert_target_columns.filter
          (fun c => !((trades_schema_cols.map Col.name).contains c))
        if missing.isEmpty then
          (none, ({ name := "trades", cols := trades_schema_cols,
                    rows := migrateTable cols t.rows } : Table) :: s1)
        else
          (some ("table trades has no column named " ++ missing.headD ""),
           ({ name := "trades", cols := trades_schema_cols, rows := [] } : Table) :: s1)

/-- A persisted `Trade` record with the fields of the model class.  Nullable
columns are `Option`s; float columns carry `ℚ` (they are only stored and
copied, never computed with); datetimes are timestamps. -/
structure TradeR where
  id : Int
  exchange : String
  pair : String
  is_open : Bool
  fee_open : ℚ
  fee_close : ℚ
  open_rate : Option ℚ
  open_rate_requested : Option ℚ
  close_rate : Option ℚ
  close_rate_requested : Option ℚ
  close_profit : Option ℚ
  stake_amount : ℚ
  amount : Option ℚ
  open_date : Int
  close_date : Option Int
  open_order_id : Option String
  stop_loss : ℚ
  stop_loss_pct : Option ℚ
  initial_stop_loss : Option ℚ
  initial_stop_loss_pct : Option ℚ
  stop_loss_order_id : Option String
  stoploss_last_update : Option Int
  max_rate : Option ℚ
  min_rate : Option ℚ
  sell_reason : Option String
  strategy : Option String
  ticker_interval : Option Int
deriving DecidableEq

/-- Python's substring test `needle in hay`. -/
def pyContains (needle hay : String) : Bool :=
  (csInstrFrom hay.data needle.data 0).isSome

/-- Embeds `clean_dry_run_db()`: for every trade whose `open_order_id` is
not null, if the id contains `dry_run` the field is set to null; the
filter-and-mutate loop of the source acts on each trade independently, so it
is a map over the trade list. -/
def clean_dry_run_db (trades : List TradeR) : List TradeR :=
  trades.map (fun t =>
    match t.open_order_id with
    | some oid => if pyContains "dry_run" oid then { t with open_order_id := none } else t
    | none => t)

/-- Embeds the dry-run cleanup decision of `init(db_url, clean_open_orders)`
and its effect on the stored trades:
`if clean_open_orders and db_url != 'sqlite://': clean_dry_run_db()`. -/
def init_trades (db_url : String) (clean_open_orders : Bool) (trades : List TradeR) : List TradeR :=
  if clean_open_orders && !(db_url == "sqlite://") then clean_dry_run_db trades
  else trades

/-- The remediation link interpolated into the failure message of `init`. -/
def _SQL_DOCS_URL : String :=
  "http://docs.sqlalchemy.org/en/latest/core/engines.html#database-urls"

/-- A raised Python exception: class name and message. -/
structure PyExc where
  className : String
  message : String
deriving DecidableEq

/-- Names imported at the top of `persistence.py`. -/
def persistence_imported_names : List String :=
  ["logging", "datetime", "Decimal", "Any", "Dict", "List", "Optional",
   "arrow", "Boolean", "Column", "DateTime", "Float", "Integer", "String",
   "create_engine", "inspect", "NoSuchModuleError", "declarative_base",
   "scoped_session", "sessionmaker", "func", "StaticPool"]

/-- Names bound at module level in `persistence.py`. -/
def persistence_defined_names : List String :=
  ["logger", "_DECL_BASE", "_SQL_DOCS_URL", "init", "has_columns",
   "get_column_def", "check_migrate", "cleanup", "clean_dry_run_db", "Trade"]

/-- The built-in exception names of the Python runtime (the last scope a
name lookup consults). -/
def python_builtin_exceptions : List String :=
  ["BaseException", "Exception", "ArithmeticError", "AssertionError",
   "AttributeError", "BlockingIOError", "BrokenPipeError", "BufferError",
   "BytesWarning", "ChildProcessError", "ConnectionAbortedError",
   "ConnectionError", "ConnectionRefusedError", "ConnectionResetError",
   "DeprecationWarning", "EOFError", "EnvironmentError", "FileExistsError",
   "FileNotFoundError", "FloatingPointError", "FutureWarning",
   "GeneratorExit", "IOError", "ImportError", "ImportWarning",
   "IndentationError", "IndexError", "InterruptedError",
   "IsADirectoryError", "KeyError", "KeyboardInterrupt", "LookupError",
   "MemoryError", "ModuleNotFoundError", "NameError", "NotADirectoryError",
   "NotImplementedError", "OSError", "OverflowError",
   "PendingDeprecationWarning", "PermissionError", "ProcessLookupError",
   "RecursionError", "ReferenceError", "ResourceWarning", "RuntimeError",
   "RuntimeWarning", "StopAsyncIteration", "StopIteration", "SyntaxError",
   "SyntaxWarning", "SystemError", "SystemExit", "TabError", "TimeoutError",
   "TypeError", "UnboundLocalError", "UnicodeDecodeError",
   "UnicodeEncodeError", "UnicodeError", "UnicodeTranslateError",
   "UnicodeWarning", "UserWarning", "ValueError", "Warning",
   "ZeroDivisionError"]

/-- Whether a bare name used inside `persistence.py` resolves (module
globals, imports, or builtins); an unresolvable name raises `NameError`. -/
def resolvable (n : String) : Bool :=
  persistence_imported_names.contains n || persistence_defined_names.contains n ||
    python_builtin_exceptions.contains n

/-- Dialect part of a backing-store location string: the text before the
first `://`, as `create_engine` parses it; `none` when the string has no
`://` and fails URL parsing. -/
def url_dialect (db_url : String) : Option String :=
  match csInstrFrom db_url.data "://".data 0 with
  | some i => some (String.mk (db_url.data.take i))
  | none => none

/-- Database dialects the storage library can load. -/
def supported_dialects : List String :=
  ["sqlite", "postgresql", "mysql", "oracle", "mssql", "firebird", "sybase"]

/-- Outcome of `create_engine(db_url)`: `NoSuchModuleError` for an
unsupported dialect, `ArgumentError` for an unparseable location string,
success otherwise. -/
def create_engine_outcome (db_url : String) : Option PyExc :=
  match url_dialect db_url with
  | none => some ⟨"ArgumentError",
      "Could not parse rfc1738 URL from string " ++ db_url⟩
  | some d =>
      if supported_dialects.contains d then none
      else some ⟨"NoSuchModuleError",
        "Can not load plugin: sqlalchemy.dialects:" ++ d⟩

/-- Embeds the store-open step of `init`: `create_engine` inside a
`try/except NoSuchModuleError` whose handler runs
`raise OperationalException(f'Given value for db_url ... (see ...)')`.
Evaluating the handler first resolves the bare name `OperationalException`;
when the name does not resolve, Python raises `NameError` instead of the
intended exception.  Any exception other than `NoSuchModuleError`
propagates uncaught. -/
def init_store_open (db_url : String) : Option PyExc :=
  match create_engine_outcome db_url with
  | none => none
  | some e =>
      if e.className = "NoSuchModuleError" then
        if resolvable "OperationalException" then
          some ⟨"OperationalException",
            "Given value for db_url " ++ db_url ++
              " is no valid database URL! (see " ++ _SQL_DOCS_URL ++ ")"⟩
        else some ⟨"NameError", "name OperationalException is not defined"⟩
      else some e

/-- Column set of a legacy-shape `trades` table (predating the
stop-loss-related columns), used as a concrete migration input. -/
def legacy_cols0 : List Col :=
  [⟨"id"⟩, ⟨"exchange"⟩, ⟨"pair"⟩, ⟨"is_open"⟩, ⟨"fee"⟩, ⟨"open_rate"⟩,
   ⟨"close_rate"⟩, ⟨"close_profit"⟩, ⟨"stake_amount"⟩, ⟨"amount"⟩,
   ⟨"open_date"⟩, ⟨"close_date"⟩, ⟨"open_order_id"⟩]

/-- One legacy trade row. -/
def legacy_row0 : Row :=
  [("id", Val.num 1), ("exchange", Val.text "Binance"),
   ("pair", Val.text "ETH_BTC"), ("is_open", Val.boolv true),
   ("fee", Val.num 5), ("open_rate", Val.num 9), ("close_rate", Val.null),
   ("close_profit", Val.null), ("stake_amount", Val.num 3),
   ("amount", Val.num 2), ("open_date", Val.num 100),
   ("close_date", Val.null), ("open_order_id", Val.text "dry_run-123")]

/-- A database holding one legacy-shape `trades` table with one row. -/
def legacy_state0 : DBState :=
  [{ name := "trades", cols := legacy_cols0, rows := [legacy_row0] }]

/-- An open trade whose order id carries the dry-run sentinel. -/
def trade0 : TradeR :=
  { id := 1, exchange := "binance", pair := "BTC/ETH", is_open := true,
    fee_open := 0, fee_close := 0, open_rate := some 9,
    open_rate_requested := none, close_rate := none,
    close_rate_requested := none, close_profit := none, stake_amount := 3,
    amount := some 2, open_date := 100, close_date := none,
    open_order_id := some "dry_run-123", stop_loss := 0,
    stop_loss_pct := none, initial_stop_loss := none,
    initial_stop_loss_pct := none, stop_loss_order_id := none,
    stoploss_last_update := none, max_rate := none, min_rate := none,
    sell_reason := none, strategy := none, ticker_interval := none }

/-- An open trade whose order id does not carry the dry-run sentinel. -/
def trade1 : TradeR :=
  { trade0 with id := 2, open_order_id := some "live-456" }

lemma foldl_range_const {α : Type} (f : Nat → α) (a : α) (n : Nat) :
    (List.range n).foldl (fun _ i => f i) a = if n = 0 then a else f (n - 1) := by
  induction n with
  | zero => simp
  | succ m ih => rw [List.range_succ, List.foldl_append]; simp

lemma backupName_eq (tabs : List String) :
    backupName tabs =
      if tabs.length = 0 then "trades_bak"
      else "trades_bak" ++ toString (tabs.length - 1) :=
  foldl_range_const _ _ _

lemma backupName_ne_trades (tabs : List String) : backupName tabs ≠ "trades" := by
  rw [backupName_eq]
  split
  · decide
  · intro hcontra
    have hlen := congrArg String.length hcontra
    rw [String.length_append] at hlen
    have h10 : ("trades_bak" : String).length = 10 := rfl
    have h6 : ("trades" : String).length = 6 := rfl
    omega

lemma countP_name_nodup (columns : List Col) (s : String)
    (h : (columns.map Col.name).Nodup) :
    columns.countP (fun x => x.name == s) =
      if s ∈ columns.map Col.name then 1 else 0 := by
  induction columns with
  | nil => simp
  | cons c l ih =>
    rw [List.map_cons, List.nodup_cons] at h
    rw [List.countP_cons, ih h.2, List.map_cons]
    by_cases hc : c.name = s
    · subst hc
      simp [h.1]
    · simp [hc, Ne.symm hc]

lemma has_columns_eq_countP (columns : List Col) (searchname : String) :
    has_columns columns searchname = true ↔
      columns.countP (fun x => x.name == searchname) = 1 := by
  simp [has_columns, List.countP_eq_length_filter]

/-- C1. The pair-symbol rewrite the migration's insert-select actually
performs on a symbol containing the legacy separator: `ETH_BTC` is turned
into `BTC/H_BTC` — `substr(pair, instr(pair, '_') - 1)` yields the suffix
starting one position before the separator, not the prefix before it — so
the result is not the specified `BTC/ETH`; a symbol without the separator is
passed through unchanged. -/
theorem check_migrate_pair_reorder_bug :
    migratePair "ETH_BTC" = "BTC/H_BTC"
  ∧ migratePair "ETH_BTC" ≠ "BTC/ETH"
  ∧ migratePair "ETH/BTC" = "ETH/BTC" := by
  refine ⟨by decide, by decide, by decide⟩

/-- C2. The backup-name loop of `check_migrate` only counts the existing
tables: on the table set `{trades, trades_bak1}` it chooses `trades_bak1`,
which already exists — a collision with an existing table, where the lowest
unused suffix would give `trades_bak0`.  (On `{trades, trades_bak0}` the
chosen name is `trades_bak1` only because that set happens to have two
elements.) -/
theorem check_migrate_backup_name_collision :
    backupName ["trades", "trades_bak1"] = "trades_bak1"
  ∧ "trades_bak1" ∈ ["trades", "trades_bak1"]
  ∧ backupName ["trades", "trades_bak0"] = "trades_bak1" := by
  refine ⟨by decide, by decide, by decide⟩

/-- C3. On a location string naming an unsupported engine, the
`except NoSuchModuleError` handler of `init` evaluates the bare name
`OperationalException`, which resolves against no import, module-level
binding or builtin of `persistence.py`; the attempt therefore raises
`NameError`, not a descriptive configuration exception.  A string that fails
URL parsing raises `ArgumentError`, which the handler does not catch, and a
supported location opens without error. -/
theorem init_unsupported_engine_raises_name_error :
    resolvable "OperationalException" = false
  ∧ init_store_open "foo://test.db" =
      some ⟨"NameError", "name OperationalException is not defined"⟩
  ∧ (init_store_open "notaurl").map PyExc.className = some "ArgumentError"
  ∧ init_store_open "sqlite://" = none := by
  refine ⟨by decide, by decide, by decide, by decide⟩

/-- C4. The migration's insert-select targets the column
`stoploss_order_id`, but the table re-created from the `Trade` model carries
`stop_loss_order_id`; the storage engine rejects the statement, so on a
one-row legacy table the migration reports the missing column and the new
`trades` table ends up with zero rows instead of a preserved copy. -/
theorem check_migrate_insert_column_mismatch :
    "stoploss_order_id" ∈ insert_target_columns
  ∧ "stoploss_order_id" ∉ trades_schema_cols.map Col.name
  ∧ (check_migrate_state legacy_state0).1 =
      some "table trades has no column named stoploss_order_id"
  ∧ (getTable (check_migrate_state legacy_state0).2 "trades").map Table.rows =
      some [] := by
  refine ⟨by decide, by decide, by decide, by decide⟩

/-- C8. `has_columns(columns, name)` is true exactly when the number of
columns whose name matches is one; in particular it is false when no column
matches and false when two or more match. -/
theorem has_columns_exactly_one (columns : List Col) (searchname : String) :
    (has_columns columns searchname = true ↔
      columns.countP (fun x => x.name == searchname) = 1)
  ∧ (columns.countP (fun x => x.name == searchname) = 0 →
      has_columns columns searchname = false)
  ∧ (2 ≤ columns.countP (fun x => x.name == searchname) →
      has_columns columns searchname = false) := by
  have h := has_columns_eq_countP columns searchname
  refine ⟨h, ?_, ?_⟩
  · intro h0
    cases hb : has_columns columns searchname with
    | false => rfl
    | true => exact absurd (h.1 hb) (by omega)
  · intro h2
    cases hb : has_columns columns searchname with
    | false => rfl
    | true => exact absurd (h.1 hb) (by omega)

/-- Witness for C8 at concrete inputs: a name matched by no column and a
name matched by two columns both fail the predicate. -/
theorem has_columns_exactly_one_witness :
    has_columns [⟨"a"⟩, ⟨"a"⟩] "b" = false
  ∧ has_columns [⟨"a"⟩, ⟨"a"⟩] "a" = false :=
  ⟨(has_columns_exactly_one [⟨"a"⟩, ⟨"a"⟩] "b").2.1 (by decide),
   (has_columns_exactly_one [⟨"a"⟩, ⟨"a"⟩] "a").2.2 (by decide)⟩

lemma insert_missing_eq :
    insert_target_columns.filter
      (fun c => !((trades_schema_cols.map Col.name).contains c)) =
      ["stoploss_order_id"] := by decide

lemma check_migrate_state_done (s : DBState)
    (h : has_columns (get_columns s "trades") "stop_loss_pct" = true) :
    check_migrate_state s = (none, s) := by
  simp [check_migrate_state, h]

lemma check_migrate_state_collision (s : DBState) (t : Table)
    (h : getTable s "trades" = some t)
    (hm : has_columns t.cols "stop_loss_pct" = false)
    (hb : backupName (get_table_names s) ∈ get_table_names s) :
    check_migrate_state s =
      (some ("there is already another table or index with this name: " ++
        backupName (get_table_names s)), s) := by
  have hc : get_columns s "trades" = t.cols := by simp [get_columns, h]
  have hcont : (get_table_names s).contains (backupName (get_table_names s)) = true := by
    simpa using hb
  simp only [check_migrate_state, hc, hm, h, Bool.false_eq_true, if_false,
    hcont, if_true]

lemma check_migrate_state_migrating (s : DBState) (t : Table)
    (h : getTable s "trades" = some t)
    (hm : has_columns t.cols "stop_loss_pct" = false)
    (hb : backupName (get_table_names s) ∉ get_table_names s) :
    check_migrate_state s =
      (some "table trades has no column named stoploss_order_id",
       ({ name := "trades", cols := trades_schema_cols, rows := [] } : Table) ::
         s.map (fun u => if u.name == "trades" then
           { u with name := backupName (get_table_names s) } else u)) := by
  have hc : get_columns s "trades" = t.cols := by simp [get_columns, h]
  have hcont : (get_table_names s).contains (backupName (get_table_names s)) = false := by
    simpa using hb
  simp only [check_migrate_state, hc, hm, h, Bool.false_eq_true, if_false,
    hcont, insert_missing_eq, List.isEmpty_cons, List.headD_cons]
  rfl

lemma check_migrate_state_marker_after (s : DBState) (t : Table)
    (h : getTable s "trades" = some t)
    (hb : backupName (get_table_names s) ∉ get_table_names s) :
    has_columns (get_columns (check_migrate_state s).2 "trades")
      "stop_loss_pct" = true := by
  cases hm : has_columns t.cols "stop_loss_pct" with
  | true =>
    rw [check_migrate_state_done s (by simpa [get_columns, h] using hm)]
    simpa [get_columns, h] using hm
  | false =>
    rw [check_migrate_state_migrating s t h hm hb]
    simp [get_columns, getTable]
    decide

/-- C5. Running `check_migrate` twice performs the migration at most once:
when the marker column `stop_loss_pct` is already present in the `trades`
table the call succeeds without touching the database state; when the
computed backup name is free — as it is after any first call that actually
performed the rename — the re-created `trades` table carries the marker and
the second call is exactly such a successful no-op; and whatever happened on
the first call (no-op, migration, or a rename rejected because the backup
name was taken), the second call never changes the database state. -/
theorem check_migrate_idempotent (s : DBState) (t : Table)
    (h : getTable s "trades" = some t) :
    (has_columns (get_columns s "trades") "stop_loss_pct" = true →
        check_migrate_state s = (none, s))
  ∧ (backupName (get_table_names s) ∉ get_table_names s →
        check_migrate_state (check_migrate_state s).2 =
          (none, (check_migrate_state s).2))
  ∧ (check_migrate_state (check_migrate_state s).2).2 =
      (check_migrate_state s).2 := by
  refine ⟨check_migrate_state_done s, ?_, ?_⟩
  · intro hb
    exact check_migrate_state_done _ (check_migrate_state_marker_after s t h hb)
  · cases hm : has_columns t.cols "stop_loss_pct" with
    | true =>
      have hdone := check_migrate_state_done s (by simpa [get_columns, h] using hm)
      rw [hdone]
      rw [hdone]
    | false =>
      by_cases hb : backupName (get_table_names s) ∈ get_table_names s
      · have hcol := check_migrate_state_collision s t h hm hb
        rw [hcol]
        rw [hcol]
      · have hsecond :=
          check_migrate_state_done _ (check_migrate_state_marker_after s t h hb)
        rw [hsecond]

/-- Witness for C5 on the concrete one-row legacy database, whose backup
name `trades_bak0` is free. -/
theorem check_migrate_idempotent_witness :
    check_migrate_state (check_migrate_state legacy_state0).2 =
      (none, (check_migrate_state legacy_state0).2)
  ∧ (check_migrate_state (check_migrate_state legacy_state0).2).2 =
      (check_migrate_state legacy_state0).2 :=
  ⟨(check_migrate_idempotent legacy_state0
      { name := "trades", cols := legacy_cols0, rows := [legacy_row0] }
      (by decide)).2.1 (by decide),
   (check_migrate_idempotent legacy_state0
      { name := "trades", cols := legacy_cols0, rows := [legacy_row0] }
      (by decide)).2.2⟩

lemma find?_rename_backup (s : DBState) (t : Table) (bak : String)
    (h : s.find? (fun u => u.name == "trades") = some t)
    (hb : ∀ u ∈ s, u.name ≠ bak) :
    (s.map (fun u => if u.name == "trades" then { u with name := bak } else u)).find?
      (fun u => u.name == bak) = some { t with name := bak } := by
  induction s with
  | nil => simp at h
  | cons a l ih =>
    by_cases ha : a.name = "trades"
    · rw [List.find?_cons_of_pos _ (by simp [ha])] at h
      obtain rfl : a = t := Option.some.inj h
      rw [List.map_cons, if_pos (by simp [ha])]
      exact List.find?_cons_of_pos _ (by simp)
    · rw [List.find?_cons_of_neg _ (by simp [ha])] at h
      rw [List.map_cons, if_neg (by simp [ha]),
        List.find?_cons_of_neg _ (by simp [hb a (List.mem_cons_self a l)])]
      exact ih h (fun u hu => hb u (List.mem_cons_of_mem a hu))

lemma mem_names_after_rename (s : DBState) (bak n : String)
    (hn : n ∈ get_table_names s) (hne : n ≠ "trades") :
    n ∈ get_table_names
      (s.map (fun u => if u.name == "trades" then { u with name := bak } else u)) := by
  rcases List.mem_map.1 hn with ⟨u, hu, rfl⟩
  unfold get_table_names
  rw [List.map_map]
  refine List.mem_map.2 ⟨u, hu, ?_⟩
  simp [Function.comp, hne]

/-- C9. A migration run renames the legacy `trades` table to the computed
backup name and never drops it: afterwards the backup table exists and holds
exactly the legacy columns and rows, every previously existing table name is
still present, and the backup also survives a repeated `check_migrate`
call. -/
theorem check_migrate_retains_backup (s : DBState) (t : Table)
    (h : getTable s "trades" = some t)
    (hm : has_columns t.cols "stop_loss_pct" = false)
    (hb : backupName (get_table_names s) ∉ get_table_names s) :
    getTable (check_migrate_state s).2 (backupName (get_table_names s)) =
      some { t with name := backupName (get_table_names s) }
  ∧ (∀ n ∈ get_table_names s, n ∈ get_table_names (check_migrate_state s).2)
  ∧ getTable (check_migrate_state (check_migrate_state s).2).2
      (backupName (get_table_names s)) =
      some { t with name := backupName (get_table_names s) } := by
  have hbakne : backupName (get_table_names s) ≠ "trades" := backupName_ne_trades _
  have hbu : ∀ u ∈ s, u.name ≠ backupName (get_table_names s) := by
    intro u hu heq
    apply hb
    rw [← heq]
    exact List.mem_map_of_mem Table.name hu
  rw [check_migrate_state_migrating s t h hm hb]
  have hfind :
      getTable
        (({ name := "trades", cols := trades_schema_cols, rows := [] } : Table) ::
          s.map (fun u => if u.name == "trades" then
            { u with name := backupName (get_table_names s) } else u))
        (backupName (get_table_names s)) =
        some { t with name := backupName (get_table_names s) } := by
    unfold getTable
    rw [List.find?_cons_of_neg _ (by simp [Ne.symm hbakne])]
    exact find?_rename_backup s t _ h hbu
  refine ⟨hfind, ?_, ?_⟩
  · intro n hn
    simp only [get_table_names, List.map_cons, List.mem_cons]
    by_cases hn2 : n = "trades"
    · exact Or.inl hn2
    · right
      have hmem := mem_names_after_rename s (backupName (get_table_names s)) n hn hn2
      simpa [get_table_names] using hmem
  · have hmark :
        has_columns
          (get_columns
            (({ name := "trades", cols := trades_schema_cols, rows := [] } : Table) ::
              s.map (fun u => if u.name == "trades" then
                { u with name := backupName (get_table_names s) } else u)) "trades")
          "stop_loss_pct" = true := by
      simp only [get_columns, getTable]
      rw [List.find?_cons_of_pos _ (by simp)]
      decide
    rw [check_migrate_state_done _ hmark]
    exact hfind

/-- Witness for C9 on the concrete one-row legacy database. -/
theorem check_migrate_retains_backup_witness :
    getTable (check_migrate_state legacy_state0).2
      (backupName (get_table_names legacy_state0)) =
      some { name := backupName (get_table_names legacy_state0),
             cols := legacy_cols0, rows := [legacy_row0] } :=
  (check_migrate_retains_backup legacy_state0
    { name := "trades", cols := legacy_cols0, rows := [legacy_row0] }
    (by decide) (by decide) (by decide)).1

/-- C6. `get_column_def` resolves a column against a duplicate-free legacy
column set to the column's own name when present and to the fallback
expression otherwise; and in the fifteen resolutions performed by
`check_migrate`, a present column maps to itself while an absent one maps to
its per-column fallback: the two fee columns to the legacy `fee` column,
`stop_loss`, `initial_stop_loss` and `max_rate` to the literal `0.0`, and
all remaining columns to the SQL literal `null`. -/
theorem get_column_def_resolution (columns : List Col) (column dflt : String)
    (hnd : (columns.map Col.name).Nodup) :
    get_column_def columns column dflt =
      (if column ∈ columns.map Col.name then column else dflt)
  ∧ ∀ p ∈ check_migrate_defaults columns,
      (has_columns columns p.1 = true → p.2 = p.1)
      ∧ (has_columns columns p.1 = false →
          p.2 = (if p.1 = "fee_open" ∨ p.1 = "fee_close" then "fee"
                 else if p.1 = "stop_loss" ∨ p.1 = "initial_stop_loss" ∨
                     p.1 = "max_rate" then "0.0"
                 else "null")) := by
  constructor
  · have hcount := countP_name_nodup columns column hnd
    by_cases hmem : column ∈ columns.map Col.name
    · have h1 : has_columns columns column = true :=
        (has_columns_eq_countP columns column).2 (by rw [hcount, if_pos hmem])
      simp [get_column_def, h1, hmem]
    · have h1 : has_columns columns column = false := by
        cases hcb : has_columns columns column with
        | false => rfl
        | true =>
          have hone := (has_columns_eq_countP columns column).1 hcb
          rw [hcount, if_neg hmem] at hone
          exact absurd hone (by omega)
      simp [get_column_def, h1, hmem]
  · intro p hp
    fin_cases hp <;>
      refine ⟨fun hcol => by simp [get_column_def, hcol], fun hcol => ?_⟩ <;>
      simp [get_column_def, hcol]

/-- Witness for C6 on the concrete legacy column set, which lacks
`fee_open` but has `fee`. -/
theorem get_column_def_resolution_witness :
    get_column_def legacy_cols0 "fee_open" "fee" =
      (if "fee_open" ∈ legacy_cols0.map Col.name then "fee_open" else "fee")
  ∧ get_column_def legacy_cols0 "fee_open" "fee" = "fee" := by
  have h := get_column_def_resolution legacy_cols0 "fee_open" "fee" (by decide)
  refine ⟨h.1, ?_⟩
  have h2 := (h.2 ("fee_open", get_column_def legacy_cols0 "fee_open" "fee")
    (by decide)).2 (by decide)
  simpa using h2

/-- C7. With `clean_open_orders = true` and a store location other than the
in-process `sqlite://`, `init` scrubs the order id of a trade whose open
order id carries the `dry_run` sentinel; for the in-process `sqlite://`
location the trade list is returned untouched whatever the flag. -/
theorem init_dry_run_cleanup (db_url : String) (trades : List TradeR)
    (i : Nat) (t : TradeR) (oid : String)
    (ht : trades[i]? = some t) (hoid : t.open_order_id = some oid)
    (hdry : pyContains "dry_run" oid = true) (hurl : db_url ≠ "sqlite://") :
    ((init_trades db_url true trades)[i]?.map TradeR.open_order_id) = some none
  ∧ ∀ b : Bool, init_trades "sqlite://" b trades = trades := by
  constructor
  · have hbeq : (db_url == "sqlite://") = false := by simp [hurl]
    simp [init_trades, hbeq, clean_dry_run_db, ht, hoid, hdry]
  · intro b
    simp [init_trades]

/-- Witness for C7: a dry-run order id is cleared against a file-backed
store and kept for the in-process store. -/
theorem init_dry_run_cleanup_witness :
    ((init_trades "sqlite:///data.db" true [trade0])[0]?.map
      TradeR.open_order_id) = some none
  ∧ init_trades "sqlite://" false [trade0] = [trade0] := by
  have h := init_dry_run_cleanup "sqlite:///data.db" [trade0] 0 trade0
    "dry_run-123" rfl rfl (by decide) (by decide)
  exact ⟨h.1, h.2 false⟩

/-- C10. `clean_dry_run_db` preserves the number of trades, leaves every
trade with a null order id or an order id not containing `dry_run` entirely
unchanged, and for a trade whose order id contains `dry_run` changes the
`open_order_id` field to null and nothing else. -/
theorem clean_dry_run_db_frame (trades : List TradeR) (i : Nat) (t : TradeR)
    (ht : trades[i]? = some t) :
    (clean_dry_run_db trades).length = trades.length
  ∧ (t.open_order_id = none → (clean_dry_run_db trades)[i]? = some t)
  ∧ (∀ oid, t.open_order_id = some oid → pyContains "dry_run" oid = false →
      (clean_dry_run_db trades)[i]? = some t)
  ∧ (∀ oid, t.open_order_id = some oid → pyContains "dry_run" oid = true →
      (clean_dry_run_db trades)[i]? = some { t with open_order_id := none }) := by
  refine ⟨by simp [clean_dry_run_db], ?_, ?_, ?_⟩
  · intro hnone
    simp [clean_dry_run_db, ht, hnone]
  · intro oid hoid hdry
    simp [clean_dry_run_db, ht, hoid, hdry]
  · intro oid hoid hdry
    simp [clean_dry_run_db, ht, hoid, hdry]

/-- Witness for C10 on a two-trade list: the dry-run trade loses only its
order id, the live trade is untouched. -/
theorem clean_dry_run_db_frame_witness :
    (clean_dry_run_db [trade0, trade1])[0]? =
      some { trade0 with open_order_id := none }
  ∧ (clean_dry_run_db [trade0, trade1])[1]? = some trade1 :=
  ⟨(clean_dry_run_db_frame [trade0, trade1] 0 trade0 rfl).2.2.2
      "dry_run-123" rfl (by decide),
   (clean_dry_run_db_frame [trade0, trade1] 1 trade1 rfl).2.2.1
      "live-456" rfl (by decide)⟩
